import Mathlib

/-! # ngprolance profile backend: registration, login and profile handlers

A shallow embedding of `src/index.js` (an Express application on top of
`pg`, `bcryptjs` and `jsonwebtoken`).

* The `users` table is a list of rows; every `pool.query` of the source is a
  function on that list that can reject: for a text parameter PostgreSQL
  refuses (one containing U+0000), for a duplicate email, or for a cause
  outside the request (`fault`, an argument of the handlers: a lost
  connection, a constraint of a schema that is not among the sources).
* The cryptographic cores of `bcryptjs` and `jsonwebtoken` and the text
  conversions of `pg` / `JSON.stringify` are fields of `Libs`; the argument
  checks these libraries perform around their cores are written out.
* The clock (`Date.now()`, in seconds) and the salt drawn by `bcrypt.genSalt`
  are explicit arguments of the handlers.
-/

namespace Profile

/-! ## Values arriving in a JSON request body -/

/-- A field of `req.body` after `express.json()`: `undefined` stands for a key
that is absent from the body. Numbers are kept as integers. -/
inductive JsValue where
  | undefined
  | null
  | bool (b : Bool)
  | num (n : Int)
  | str (s : String)
  | arr (items : List JsValue)
  | obj (fields : List (String × JsValue))

/-- The result of JavaScript `typeof`, used in the error texts of bcryptjs. -/
def JsValue.typeof : JsValue → String
  | .undefined => "undefined"
  | .null => "object"
  | .bool _ => "boolean"
  | .num _ => "number"
  | .str _ => "string"
  | .arr _ => "object"
  | .obj _ => "object"

/-- The payload of a session token: `id`, issued-at and expiry (seconds). -/
structure Payload where
  id : Nat
  iat : Nat
  exp : Option Nat
deriving DecidableEq, Repr

/-- The library functions the handlers call, reduced to their cores.

* `bcryptHash s salt`: `bcrypt.hash` on two strings;
* `bcryptCompare s hash`: `bcrypt.compare` on two strings;
* `jwtSeal p secret`: the compact signed form of payload `p`;
* `jwtOpen token secret`: parsing and signature check of a token
  (`none` when the token is malformed or the signature does not match);
* `pgText v`: the text `pg` sends for a parameter that is neither null nor a
  string (`toString`, array literal or JSON text);
* `jsonText v`: `JSON.stringify v` for a value other than `undefined`. -/
structure Libs where
  bcryptHash : String → String → String
  bcryptCompare : String → String → Bool
  jwtSeal : Payload → String → String
  jwtOpen : String → String → Option Payload
  pgText : JsValue → String
  jsonText : JsValue → String

/-- Process configuration: `process.env.JWT_SECRET` (`none` when unset). -/
structure Env where
  JWT_SECRET : Option String

/-! ## Library wrappers: the argument checks around the cores -/

/-- The call `bcrypt.hash(s, salt)` with a salt from `bcrypt.genSalt`: rejects
with `Illegal arguments` unless `s` is a string. -/
def bcrypt_hash (L : Libs) (s : JsValue) (salt : String) : Except String String :=
  match s with
  | .str p => .ok (L.bcryptHash p salt)
  | v => .error ("Illegal arguments: " ++ v.typeof ++ ", string")

/-- The call `bcrypt.compare(s, hash)` with a string `hash`: rejects with
`Illegal arguments` unless `s` is a string. -/
def bcrypt_compare (L : Libs) (s : JsValue) (hash : String) : Except String Bool :=
  match s with
  | .str p => .ok (L.bcryptCompare p hash)
  | v => .error ("Illegal arguments: " ++ v.typeof ++ ", string")

/-- The number of seconds in the `expiresIn: '1h'` option. -/
def oneHour : Nat := 3600

/-- The call `jwt.sign(\x7b id \x7d, secret, \x7b expiresIn: '1h' \x7d)` at
clock time `now`: throws when the secret is unset or empty, otherwise seals
the payload with `iat = now` and `exp = now + 3600`. -/
def jwt_sign (L : Libs) (id : Nat) (secret : Option String) (now : Nat) :
    Except String String :=
  match secret with
  | none => .error "secretOrPrivateKey must have a value"
  | some s =>
    if s = "" then .error "secretOrPrivateKey must have a value"
    else .ok (L.jwtSeal ⟨id, now, some (now + oneHour)⟩ s)

/-- The call `jwt.verify(token, secret)` at clock time `now`: throws on an
empty token, an unset or empty secret, a token that does not open under the
secret, and a token whose `exp` is not after `now`. -/
def jwt_verify (L : Libs) (token : String) (secret : Option String) (now : Nat) :
    Except String Payload :=
  if token = "" then .error "jwt must be provided"
  else
    match secret with
    | none => .error "secret or public key must be provided"
    | some s =>
      if s = "" then .error "secret or public key must be provided"
      else
        match L.jwtOpen token s with
        | none => .error "invalid token"
        | some p =>
          match p.exp with
          | none => .ok p
          | some e => if now ≥ e then .error "jwt expired" else .ok p

/-- The conversion `pg` applies to a query parameter: `null` and `undefined`
become SQL NULL, a string is sent as it is. -/
def prepareValue (L : Libs) : JsValue → Option String
  | .undefined => none
  | .null => none
  | .str s => some s
  | v => some (L.pgText v)

/-- The query parameter `JSON.stringify(portfolio)`: `undefined` for an absent
portfolio (sent as NULL), otherwise the JSON text, sent as a string. -/
def JSON_stringify (L : Libs) : JsValue → Option String
  | .undefined => none
  | v => some (L.jsonText v)

/-! ## The `users` table -/

/-- One row of `users`. -/
structure UserRow where
  id : Nat
  first_name : Option String
  last_name : Option String
  website : Option String
  professional_title : Option String
  email : Option String
  bio : Option String
  skills : Option String
  portfolio : Option String
  password_hash : String
deriving DecidableEq, Repr

/-- Modelled from the spec: the `users` table, whose schema file is not among
the sources. Rows are in insertion order; `nextId` is the next identifier the
store assigns ("a server-assigned unique identifier"); the only constraint
beside the key is that `email` is unique across rows. -/
structure Store where
  rows : List UserRow
  nextId : Nat
deriving DecidableEq, Repr

/-- The credential columns of a row. -/
def UserRow.creds (r : UserRow) : Nat × Option String × String :=
  (r.id, r.email, r.password_hash)

/-- The profile columns written by the `UPDATE` statement. -/
structure ProfileFields where
  first_name : Option String
  last_name : Option String
  website : Option String
  professional_title : Option String
  bio : Option String
  skills : Option String
  portfolio : Option String
deriving DecidableEq, Repr

/-- The profile columns of a row. -/
def UserRow.profile (r : UserRow) : ProfileFields :=
  ⟨r.first_name, r.last_name, r.website, r.professional_title, r.bio, r.skills, r.portfolio⟩

/-- Whether PostgreSQL accepts a text: it refuses one that contains U+0000. -/
def textOk (s : String) : Bool :=
  s.data.all (fun c => c != Char.ofNat 0)

/-- Whether PostgreSQL accepts a text parameter; NULL is always accepted. -/
def paramOk : Option String → Bool
  | none => true
  | some s => textOk s

/-- What `pool.query` does with a statement before running it: `some err` when
the promise is rejected, `none` when the statement runs. It is rejected when
the store is at fault (`fault`, the error of a cause the sources do not
decide: a lost connection, a constraint or a column type of the schema) and
when one of the text parameters is refused. -/
def rejection (fault : Option String) (params : List (Option String)) : Option String :=
  match fault with
  | some err => some err
  | none =>
    if params.all paramOk then none
    else some "invalid byte sequence for encoding UTF8: 0x00"

/-- Whether the unique constraint on `email` rejects a new row with email
`e`: a NULL email collides with nothing. -/
def emailTaken (st : Store) (e : Option String) : Bool :=
  match e with
  | none => false
  | some s => st.rows.any (fun r => r.email == some s)

/-- The nine text parameters of the `INSERT`, in the order of the source. -/
def insertParams (p : ProfileFields) (email : Option String) (password_hash : String) :
    List (Option String) :=
  [p.first_name, p.last_name, p.website, p.professional_title, email, p.bio, p.skills,
    p.portfolio, some password_hash]

/-- The seven text parameters of the `UPDATE`, in the order of the source; the
eighth parameter is the identifier. -/
def updateParams (p : ProfileFields) : List (Option String) :=
  [p.first_name, p.last_name, p.website, p.professional_title, p.bio, p.skills, p.portfolio]

/-- The query `INSERT INTO users (...) VALUES (...) RETURNING *`: rejected by
the store as `rejection` says, rejected on a duplicate email, otherwise it
appends the row under a fresh identifier and returns it. -/
def insertUser (fault : Option String) (st : Store) (p : ProfileFields)
    (email : Option String) (password_hash : String) : Except String (Store × UserRow) :=
  match rejection fault (insertParams p email password_hash) with
  | some err => .error err
  | none =>
    if emailTaken st email then
      .error "duplicate key value violates unique constraint"
    else
      let row : UserRow :=
        ⟨st.nextId, p.first_name, p.last_name, p.website, p.professional_title,
          email, p.bio, p.skills, p.portfolio, password_hash⟩
      .ok (⟨st.rows ++ [row], st.nextId + 1⟩, row)

/-- The query `SELECT * FROM users WHERE email = $1`: rejected by the store as
`rejection` says; a NULL parameter matches no row. -/
def selectByEmail (fault : Option String) (st : Store) (email : Option String) :
    Except String (List UserRow) :=
  match rejection fault [email] with
  | some err => .error err
  | none =>
    match email with
    | none => .ok []
    | some s => .ok (st.rows.filter (fun r => r.email == some s))

/-- The query `SELECT * FROM users WHERE id = $1`; its parameter is a number. -/
def selectById (fault : Option String) (st : Store) (id : Nat) :
    Except String (List UserRow) :=
  match rejection fault [] with
  | some err => .error err
  | none => .ok (st.rows.filter (fun r => r.id == id))

/-- The rows after `SET first_name = $1, ... , portfolio = $7 WHERE id = $8`. -/
def updateRows (rows : List UserRow) (p : ProfileFields) (id : Nat) : List UserRow :=
  rows.map (fun r =>
    if r.id == id then
      ⟨r.id, p.first_name, p.last_name, p.website, p.professional_title,
        r.email, p.bio, p.skills, p.portfolio, r.password_hash⟩
    else r)

/-- The query `UPDATE users SET first_name = $1, ... , portfolio = $7
WHERE id = $8`: rejected by the store as `rejection` says, otherwise it
rewrites the rows with that identifier. -/
def updateUser (fault : Option String) (st : Store) (p : ProfileFields) (id : Nat) :
    Except String Store :=
  match rejection fault (updateParams p) with
  | some err => .error err
  | none => .ok ⟨updateRows st.rows p id, st.nextId⟩

/-! ## Requests, responses and what a handler leaves behind -/

/-- The fields the handlers read from `req.body`. -/
structure ReqBody where
  first_name : JsValue
  last_name : JsValue
  website : JsValue
  professional_title : JsValue
  email : JsValue
  bio : JsValue
  skills : JsValue
  portfolio : JsValue
  password : JsValue

/-- The body of a response. -/
inductive ResBody where
  /-- The object with the single key `message`, sent by `res.json`. -/
  | message (m : String)
  /-- The object with the single key `token`, sent by `res.json`. -/
  | token (t : String)
  /-- The value of `user.rows[0]` sent by `res.json`: `none` when there is no row. -/
  | row (r : Option UserRow)
  /-- A plain text sent by `res.send`. -/
  | text (s : String)
deriving DecidableEq, Repr

/-- The statements a handler can issue through `pool.query`. -/
inductive Query where
  | insertUser
  | selectByEmail
  | selectById
  | updateUser
deriving DecidableEq, Repr

/-- What one request leaves behind: the response, the table, the statements
issued, whether the route handler ran, and the lines written by
`console.error`. -/
structure Outcome where
  status : Nat
  body : ResBody
  store : Store
  queries : List Query
  handlerRan : Bool
  console : List String
deriving DecidableEq, Repr

/-- The `catch` block shared by the four handlers: the error message goes to
the console, the client receives `500` and the text `Server error`. -/
def serverError (st : Store) (queries : List Query) (err : String) : Outcome :=
  ⟨500, .text "Server error", st, queries, true, [err]⟩

/-- What the authorization middleware does with a request. -/
inductive AuthResult where
  /-- The middleware answered itself with `res.status(status).json` of a message. -/
  | denied (status : Nat) (message : String)
  /-- The middleware stored the decoded payload in `req.user` and called `next`. -/
  | next (user : Payload)
deriving DecidableEq, Repr

/-- The middleware `authenticateToken`; `header` is `req.header('x-auth-token')`.
The test `!token` holds for an absent header and for the empty string. -/
def authenticateToken (L : Libs) (env : Env) (now : Nat) (header : Option String) :
    AuthResult :=
  match header with
  | none => .denied 401 "No token, authorization denied"
  | some token =>
    if token = "" then .denied 401 "No token, authorization denied"
    else
      match jwt_verify L token env.JWT_SECRET now with
      | .ok decoded => .next decoded
      | .error _ => .denied 401 "Token is not valid"

/-- The seven profile parameters both `INSERT` and `UPDATE` receive: six body
fields as they are and `JSON.stringify(portfolio)`. -/
def profileParams (L : Libs) (b : ReqBody) : ProfileFields :=
  ⟨prepareValue L b.first_name, prepareValue L b.last_name, prepareValue L b.website,
    prepareValue L b.professional_title, prepareValue L b.bio, prepareValue L b.skills,
    JSON_stringify L b.portfolio⟩

/-- The handler of `POST /api/register`; `salt` is the result of
`bcrypt.genSalt(10)`, `fault` what the store has against the request. -/
def register (L : Libs) (env : Env) (now : Nat) (salt : String) (fault : Option String)
    (st : Store) (b : ReqBody) : Outcome :=
  match bcrypt_hash L b.password salt with
  | .error err => serverError st [] err
  | .ok password_hash =>
    match insertUser fault st (profileParams L b) (prepareValue L b.email) password_hash with
    | .error err => serverError st [.insertUser] err
    | .ok (st', newUser) =>
      match jwt_sign L newUser.id env.JWT_SECRET now with
      | .error err => serverError st' [.insertUser] err
      | .ok token => ⟨200, .token token, st', [.insertUser], true, []⟩

/-- The handler of `POST /api/login`. -/
def login (L : Libs) (env : Env) (now : Nat) (fault : Option String) (st : Store)
    (b : ReqBody) : Outcome :=
  match selectByEmail fault st (prepareValue L b.email) with
  | .error err => serverError st [.selectByEmail] err
  | .ok [] => ⟨400, .message "Invalid Credentials", st, [.selectByEmail], true, []⟩
  | .ok (user :: _) =>
    match bcrypt_compare L b.password user.password_hash with
    | .error err => serverError st [.selectByEmail] err
    | .ok false => ⟨400, .message "Invalid Credentials", st, [.selectByEmail], true, []⟩
    | .ok true =>
      match jwt_sign L user.id env.JWT_SECRET now with
      | .error err => serverError st [.selectByEmail] err
      | .ok token => ⟨200, .token token, st, [.selectByEmail], true, []⟩

/-- The handler of `GET /api/profile`, run with `req.user = user`. -/
def getProfile (fault : Option String) (st : Store) (user : Payload) : Outcome :=
  match selectById fault st user.id with
  | .error err => serverError st [.selectById] err
  | .ok rows => ⟨200, .row rows.head?, st, [.selectById], true, []⟩

/-- The handler of `PUT /api/profile`, run with `req.user = user`. -/
def putProfile (L : Libs) (fault : Option String) (st : Store) (b : ReqBody)
    (user : Payload) : Outcome :=
  match updateUser fault st (profileParams L b) user.id with
  | .error err => serverError st [.updateUser] err
  | .ok st' => ⟨200, .text "Profile updated", st', [.updateUser], true, []⟩

/-- A route with `authenticateToken` in front of its handler: the handler runs
only when the middleware calls `next`. -/
def protect (L : Libs) (env : Env) (now : Nat) (header : Option String) (st : Store)
    (handler : Payload → Outcome) : Outcome :=
  match authenticateToken L env now header with
  | .denied status m => ⟨status, .message m, st, [], false, []⟩
  | .next user => handler user

/-- The four API requests. -/
inductive Request where
  | register (body : ReqBody)
  | login (body : ReqBody)
  | getProfile (header : Option String)
  | putProfile (header : Option String) (body : ReqBody)

/-- The server: one request against the table, at clock time `now`, with
`salt` the salt `bcrypt.genSalt` would draw and `fault` what the store has
against the one statement the request issues. -/
def handle (L : Libs) (env : Env) (now : Nat) (salt : String) (fault : Option String)
    (st : Store) : Request → Outcome
  | .register b => register L env now salt fault st b
  | .login b => login L env now fault st b
  | .getProfile h => protect L env now h st (getProfile fault st)
  | .putProfile h b => protect L env now h st (putProfile L fault st b)

/-- The store's uniqueness constraint on `email`, as a property of the table:
no two rows carry the same non-NULL email. -/
def Store.EmailsUnique (st : Store) : Prop :=
  st.rows.Pairwise (fun a b => a.email = none ∨ a.email ≠ b.email)

/-- Every stored email is a text PostgreSQL accepts. -/
def Store.EmailsClean (st : Store) : Prop :=
  ∀ r ∈ st.rows, paramOk r.email = true

/-! ## A small instance of the library cores, used to evaluate the handlers -/

/-- Reads a non-empty list of decimal digits. -/
def digitsOf (cs : List Char) : Option Nat :=
  if cs.isEmpty then none
  else
    cs.foldl
      (fun acc c => acc.bind (fun n => if c.isDigit then some (10 * n + (c.toNat - 48)) else none))
      (some 0)

/-- A toy token format: `secret.id.iat.exp` in decimal, `-` for no expiry. -/
def demoSeal (p : Payload) (secret : String) : String :=
  String.mk (secret.data ++ '.' :: (Nat.repr p.id).data ++ '.' :: (Nat.repr p.iat).data ++ '.' ::
    (match p.exp with
      | none => ['-']
      | some e => (Nat.repr e).data))

/-- Opens a toy token: four dot-separated parts, the first being the secret. -/
def demoOpen (token secret : String) : Option Payload :=
  match token.data.splitOn '.' with
  | [s, a, b, c] =>
    if s = secret.data then
      match digitsOf a, digitsOf b with
      | some id, some iat =>
        if c = ['-'] then some ⟨id, iat, none⟩
        else (digitsOf c).map (fun e => ⟨id, iat, some e⟩)
      | _, _ => none
    else none
  | _ => none

/-- A toy instance of the library cores: the hash of `p` under `salt` is
`salt$p`, tokens are `secret.id.iat.exp`. -/
def demoLibs : Libs where
  bcryptHash p salt := String.mk (salt.data ++ '$' :: p.data)
  bcryptCompare p h := h.data.dropWhile (fun c => c != '$') == '$' :: p.data
  jwtSeal := demoSeal
  jwtOpen := demoOpen
  pgText v :=
    match v with
    | .num n => toString n
    | .bool true => "true"
    | .bool false => "false"
    | _ => "\x7b\x7d"
  jsonText v :=
    match v with
    | .null => "null"
    | .num n => toString n
    | .bool true => "true"
    | .bool false => "false"
    | .str s => String.mk ('"' :: s.data ++ ['"'])
    | .arr _ => "[]"
    | _ => "\x7b\x7d"

/-- A configuration with the signing secret `k`. -/
def demoEnv : Env := ⟨some "k"⟩

/-- A request body with every field absent. -/
def emptyBody : ReqBody :=
  ⟨.undefined, .undefined, .undefined, .undefined, .undefined, .undefined, .undefined,
    .undefined, .undefined⟩

/-- A registered user: email `a@x.com`, password `p1` hashed under salt `s`. -/
def demoUser : UserRow :=
  ⟨1, some "Ann", none, none, none, some "a@x.com", none, none, none, "s$p1"⟩

/-- A table holding `demoUser` only. -/
def demoStore : Store := ⟨[demoUser], 2⟩

/-! ## Supporting lemmas -/

/-- Under the uniqueness constraint, filtering the rows by the email of a
stored row returns that row and no other. -/
theorem filter_email_eq_singleton (e : String) :
    ∀ (rows : List UserRow) (u : UserRow),
      rows.Pairwise (fun a b => a.email = none ∨ a.email ≠ b.email) →
      u ∈ rows → u.email = some e →
      rows.filter (fun r => r.email == some e) = [u] := by
  intro rows
  induction rows with
  | nil => intro u _ hu; simp at hu
  | cons x xs ih =>
    intro u hp hu he
    rw [List.pairwise_cons] at hp
    obtain ⟨hx, hxs⟩ := hp
    rcases List.mem_cons.mp hu with rfl | hmem
    · have hrest : xs.filter (fun r => r.email == some e) = [] := by
        rw [List.filter_eq_nil_iff]
        intro b hb hbe
        have hbe' : b.email = some e := by simpa using hbe
        rcases hx b hb with h | h
        · rw [he] at h; cases h
        · exact h (he.trans hbe'.symm)
      simp [List.filter_cons, he, hrest]
    · have hxe : x.email ≠ some e := by
        intro hxe
        rcases hx u hmem with h | h
        · rw [hxe] at h; cases h
        · exact h (hxe.trans he.symm)
      have := ih u hxs hmem he
      simp [List.filter_cons, hxe, this]

/-- The email lookup of a stored user, when the store runs it, under the
uniqueness constraint. -/
theorem selectByEmail_of_mem (fault : Option String) (st : Store) (u : UserRow)
    (e : String) (huniq : st.EmailsUnique) (hu : u ∈ st.rows) (he : u.email = some e)
    (hrun : rejection fault [some e] = none) :
    selectByEmail fault st (some e) = .ok [u] := by
  simp only [selectByEmail, hrun]
  rw [filter_email_eq_singleton e st.rows u huniq hu he]

/-- The token check accepts exactly when the middleware calls `next`, for a
non-empty header. -/
theorem authenticateToken_of_verify (L : Libs) (env : Env) (now : Nat) (token : String)
    (p : Payload) (h : jwt_verify L token env.JWT_SECRET now = .ok p) :
    authenticateToken L env now (some token) = .next p := by
  have hne : token ≠ "" := by
    intro h0
    simp [jwt_verify, h0] at h
  simp [authenticateToken, hne, h]

/-- What a successful insert tells: the store did not reject the statement,
the email was free, and the new row is the last of the table. -/
theorem insertUser_inv (fault : Option String) (st st' : Store) (p : ProfileFields)
    (e : Option String) (hash : String) (row : UserRow)
    (h : insertUser fault st p e hash = .ok (st', row)) :
    rejection fault (insertParams p e hash) = none ∧ emailTaken st e = false ∧
      st' = ⟨st.rows ++ [row], st.nextId + 1⟩ ∧ row.email = e := by
  unfold insertUser at h
  cases hr : rejection fault (insertParams p e hash) with
  | some err => simp [hr] at h
  | none =>
    by_cases ht : emailTaken st e = true
    · simp [hr, ht] at h
    · simp only [hr, ht, Bool.false_eq_true, if_false, Except.ok.injEq, Prod.mk.injEq] at h
      obtain ⟨hst, hrow⟩ := h
      subst hrow
      exact ⟨rfl, by simpa using ht, hst.symm, rfl⟩

/-- A text parameter of a statement the store runs is a text it accepts. -/
theorem paramOk_of_rejection (fault : Option String) (params : List (Option String))
    (x : Option String) (hx : x ∈ params) (h : rejection fault params = none) :
    paramOk x = true := by
  unfold rejection at h
  cases fault with
  | some err => simp at h
  | none =>
    by_cases hall : params.all paramOk = true
    · exact List.all_eq_true.mp hall x hx
    · simp [hall] at h

/-- A successful insert keeps emails unique. -/
theorem insertUser_emailsUnique (fault : Option String) (st st' : Store)
    (p : ProfileFields) (e : Option String)
    (hash : String) (row : UserRow) (huniq : st.EmailsUnique)
    (h : insertUser fault st p e hash = .ok (st', row)) : st'.EmailsUnique := by
  obtain ⟨-, ht, hst, hrow⟩ := insertUser_inv fault st st' p e hash row h
  subst hst
  simp only [Store.EmailsUnique, List.pairwise_append, List.pairwise_cons, List.mem_singleton]
  refine ⟨huniq, ⟨by simp, List.Pairwise.nil⟩, ?_⟩
  intro a ha b hb
  subst hb
  rw [hrow]
  cases e with
  | none =>
    cases hae : a.email with
    | none => left; rfl
    | some s => right; simp
  | some s =>
    right
    simp only [emailTaken, List.any_eq_false] at ht
    have := ht a ha
    simpa using this

/-- A successful insert keeps the stored emails accepted texts. -/
theorem insertUser_emailsClean (fault : Option String) (st st' : Store)
    (p : ProfileFields) (e : Option String)
    (hash : String) (row : UserRow) (hclean : st.EmailsClean)
    (h : insertUser fault st p e hash = .ok (st', row)) : st'.EmailsClean := by
  obtain ⟨hr, -, hst, hrow⟩ := insertUser_inv fault st st' p e hash row h
  subst hst
  intro r hmem
  rcases List.mem_append.mp hmem with hm | hm
  · exact hclean r hm
  · rw [List.mem_singleton.mp hm, hrow]
    exact paramOk_of_rejection fault _ e (by simp [insertParams]) hr

/-- An update leaves the credential columns of every row as they were. -/
theorem updateRows_creds (rows : List UserRow) (p : ProfileFields) (id : Nat) :
    (updateRows rows p id).map UserRow.creds = rows.map UserRow.creds := by
  simp only [updateRows, List.map_map]
  apply List.map_congr_left
  intro r _
  by_cases h : r.id = id <;> simp [h, UserRow.creds]

/-- An update leaves every row with another identifier as it was. -/
theorem updateRows_others (p : ProfileFields) (id : Nat) :
    ∀ rows : List UserRow,
      (updateRows rows p id).filter (fun r => r.id != id) =
        rows.filter (fun r => r.id != id) := by
  intro rows
  induction rows with
  | nil => rfl
  | cons x xs ih =>
    simp only [updateRows] at ih ⊢
    by_cases hx : x.id = id
    · simpa [hx, List.filter_cons] using ih
    · simpa [hx, List.filter_cons] using ih

/-- An update of an identifier no row carries changes nothing. -/
theorem updateRows_absent (rows : List UserRow) (p : ProfileFields) (id : Nat)
    (h : ∀ r ∈ rows, r.id ≠ id) : updateRows rows p id = rows := by
  unfold updateRows
  conv_rhs => rw [← List.map_id rows]
  apply List.map_congr_left
  intro r hr
  simp [h r hr]

/-- The first row with identifier `id` after an update of that identifier,
when the table holds a row with it, carries the new profile columns. -/
theorem filter_updateRows_head (p : ProfileFields) (id : Nat) :
    ∀ rows : List UserRow, (∃ u ∈ rows, u.id = id) →
      ∃ r, ((updateRows rows p id).filter (fun r => r.id == id)).head? = some r ∧
        r.id = id ∧ r.profile = p := by
  intro rows
  induction rows with
  | nil => intro h; simp at h
  | cons x xs ih =>
    intro h
    by_cases hx : x.id = id
    · exact ⟨⟨x.id, p.first_name, p.last_name, p.website, p.professional_title, x.email,
        p.bio, p.skills, p.portfolio, x.password_hash⟩,
        by simp [updateRows, hx, List.filter_cons], hx, rfl⟩
    · obtain ⟨u, hu, hid⟩ := h
      have hmem : u ∈ xs := by
        rcases List.mem_cons.mp hu with rfl | hm
        · exact absurd hid hx
        · exact hm
      obtain ⟨r, hr, hrid, hrp⟩ := ih ⟨u, hmem, hid⟩
      refine ⟨r, ?_, hrid, hrp⟩
      simp only [updateRows] at hr ⊢
      simpa [hx, List.filter_cons] using hr

/-- An update keeps emails unique. -/
theorem updateRows_emailsUnique (st : Store) (p : ProfileFields) (id : Nat)
    (huniq : st.EmailsUnique) :
    Store.EmailsUnique ⟨updateRows st.rows p id, st.nextId⟩ := by
  simp only [Store.EmailsUnique, updateRows, List.pairwise_map]
  refine List.Pairwise.imp ?_ huniq
  intro a b hab
  by_cases ha : a.id = id <;> by_cases hb : b.id = id <;> simpa [ha, hb] using hab

/-- An update keeps the stored emails accepted texts. -/
theorem updateRows_emailsClean (st : Store) (p : ProfileFields) (id : Nat)
    (hclean : st.EmailsClean) :
    Store.EmailsClean ⟨updateRows st.rows p id, st.nextId⟩ := by
  intro r hr
  simp only [updateRows, List.mem_map] at hr
  obtain ⟨a, ha, rfl⟩ := hr
  have := hclean a ha
  by_cases h : a.id = id <;> simpa [h] using this

/-- The table after a registration: as before, or one row longer, and then
the statement was run with an email that was free. -/
theorem register_store (L : Libs) (env : Env) (now : Nat) (salt : String)
    (fault : Option String) (st : Store) (b : ReqBody) :
    (register L env now salt fault st b).store = st ∨
      ∃ hash row, insertUser fault st (profileParams L b) (prepareValue L b.email) hash =
          .ok ((register L env now salt fault st b).store, row) := by
  cases hh : bcrypt_hash L b.password salt with
  | error err => left; simp [register, hh, serverError]
  | ok hash =>
    cases hi : insertUser fault st (profileParams L b) (prepareValue L b.email) hash with
    | error err => left; simp [register, hh, hi, serverError]
    | ok res =>
      obtain ⟨st', row⟩ := res
      right
      refine ⟨hash, row, ?_⟩
      cases hj : jwt_sign L row.id env.JWT_SECRET now with
      | error err => simp [register, hh, hi, hj, serverError]
      | ok token => simp [register, hh, hi, hj]

/-- A login never writes to the table. -/
theorem login_store (L : Libs) (env : Env) (now : Nat) (fault : Option String)
    (st : Store) (b : ReqBody) :
    (login L env now fault st b).store = st := by
  unfold login
  split
  · rfl
  · rfl
  · split
    · rfl
    · rfl
    · split <;> rfl

/-- A profile read never writes to the table. -/
theorem getProfile_store (fault : Option String) (st : Store) (user : Payload) :
    (getProfile fault st user).store = st := by
  unfold getProfile
  split <;> rfl

/-- The table after a profile update: as before, or rewritten by the
statement. -/
theorem putProfile_store (L : Libs) (fault : Option String) (st : Store) (b : ReqBody)
    (user : Payload) :
    (putProfile L fault st b user).store = st ∨
      (putProfile L fault st b user).store =
        ⟨updateRows st.rows (profileParams L b) user.id, st.nextId⟩ := by
  unfold putProfile updateUser
  cases rejection fault (updateParams (profileParams L b)) with
  | some err => left; rfl
  | none => right; rfl

/-- Uniqueness of emails is an invariant of the server: every request keeps it. -/
theorem handle_emailsUnique (L : Libs) (env : Env) (now : Nat) (salt : String)
    (fault : Option String) (st : Store) (req : Request) (huniq : st.EmailsUnique) :
    (handle L env now salt fault st req).store.EmailsUnique := by
  cases req with
  | register b =>
    rcases register_store L env now salt fault st b with h | ⟨hash, row, h⟩
    · simp only [handle, h]; exact huniq
    · exact insertUser_emailsUnique fault st _ _ _ hash row huniq h
  | login b => simp only [handle, login_store]; exact huniq
  | getProfile h =>
    simp only [handle, protect]
    cases authenticateToken L env now h with
    | denied status m => exact huniq
    | next user => rw [getProfile_store]; exact huniq
  | putProfile h b =>
    simp only [handle, protect]
    cases authenticateToken L env now h with
    | denied status m => exact huniq
    | next user =>
      rcases putProfile_store L fault st b user with hs | hs
      · rw [hs]; exact huniq
      · rw [hs]; exact updateRows_emailsUnique st _ _ huniq

/-- That every stored email is a text PostgreSQL accepts is an invariant of
the server: the only statement that writes an email is the `INSERT`, which the
store rejects when a parameter is refused. -/
theorem handle_emailsClean (L : Libs) (env : Env) (now : Nat) (salt : String)
    (fault : Option String) (st : Store) (req : Request) (hclean : st.EmailsClean) :
    (handle L env now salt fault st req).store.EmailsClean := by
  cases req with
  | register b =>
    rcases register_store L env now salt fault st b with h | ⟨hash, row, h⟩
    · simp only [handle, h]; exact hclean
    · exact insertUser_emailsClean fault st _ _ _ hash row hclean h
  | login b => simp only [handle, login_store]; exact hclean
  | getProfile h =>
    simp only [handle, protect]
    cases authenticateToken L env now h with
    | denied status m => exact hclean
    | next user => rw [getProfile_store]; exact hclean
  | putProfile h b =>
    simp only [handle, protect]
    cases authenticateToken L env now h with
    | denied status m => exact hclean
    | next user =>
      rcases putProfile_store L fault st b user with hs | hs
      · rw [hs]; exact hclean
      · rw [hs]; exact updateRows_emailsClean st _ _ hclean

/-! ## C1: the two login failures -/

/-- C1 (as amended): a login whose lookup the store answers with no row
(whatever the password field holds, absent and non-string values included)
and a login whose lookup returns a user but whose string password
`bcrypt.compare` does not accept leave the same outcome: status 400, body
`message: Invalid Credentials`, the table untouched. -/
theorem login_invalid_credentials (L : Libs) (env : Env) (now : Nat)
    (fault : Option String) (st : Store) (b : ReqBody)
    (h : selectByEmail fault st (prepareValue L b.email) = .ok [] ∨
      ∃ u rest pw, selectByEmail fault st (prepareValue L b.email) = .ok (u :: rest) ∧
        b.password = .str pw ∧ L.bcryptCompare pw u.password_hash = false) :
    login L env now fault st b =
      ⟨400, .message "Invalid Credentials", st, [.selectByEmail], true, []⟩ := by
  rcases h with h | ⟨u, rest, pw, hsel, hpw, hcmp⟩
  · simp [login, h]
  · simp [login, hsel, hpw, bcrypt_compare, hcmp]

/-- Witness for C1: the registered user `a@x.com` with the wrong password `zz`. -/
theorem login_invalid_credentials_witness :
    login demoLibs demoEnv 0 none demoStore
        ⟨.undefined, .undefined, .undefined, .undefined, .str "a@x.com", .undefined,
          .undefined, .undefined, .str "zz"⟩ =
      ⟨400, .message "Invalid Credentials", demoStore, [.selectByEmail], true, []⟩ :=
  login_invalid_credentials demoLibs demoEnv 0 none demoStore _
    (Or.inr ⟨demoUser, [], "zz", rfl, rfl, by decide⟩)

/-- Counterexample to C1 as stated: with the password field absent, the email
of a registered user is answered with 500 `Server error` (because
`bcrypt.compare` rejects a non-string), an unknown email with 400
`Invalid Credentials`; the two failures are told apart. -/
theorem login_absent_password_distinguishes :
    selectByEmail none demoStore (prepareValue demoLibs (JsValue.str "a@x.com")) =
      .ok [demoUser] ∧
    bcrypt_compare demoLibs JsValue.undefined demoUser.password_hash ≠ .ok true ∧
    login demoLibs demoEnv 0 none demoStore
        ⟨.undefined, .undefined, .undefined, .undefined, .str "a@x.com", .undefined,
          .undefined, .undefined, .undefined⟩ =
      ⟨500, .text "Server error", demoStore, [.selectByEmail], true,
        ["Illegal arguments: undefined, string"]⟩ ∧
    login demoLibs demoEnv 0 none demoStore
        ⟨.undefined, .undefined, .undefined, .undefined, .str "nobody@x.com", .undefined,
          .undefined, .undefined, .undefined⟩ =
      ⟨400, .message "Invalid Credentials", demoStore, [.selectByEmail], true, []⟩ := by
  refine ⟨rfl, ?_, by decide, by decide⟩
  intro h
  simp [bcrypt_compare] at h

/-! ## C2: login, then the middleware -/

/-- C2: for a stored user `u` and a password `bcrypt.compare` accepts against
`u.password_hash`, login answers 200 with the token sealed over `u.id` under
the process secret with `exp = now + 3600`; and at every time `t` before that
expiry the middleware, under the same secret, calls `next` with
`req.user.id = u.id`. The store runs the lookup (`hrun`; a stored email is
always a text it accepts, see `handle_emailsClean`). The two facts about
`jsonwebtoken` that enter are that the sealed token opens under its own
secret and is not the empty string. -/
theorem login_token_authenticates (L : Libs) (env : Env) (now : Nat)
    (fault : Option String) (st : Store)
    (b : ReqBody) (u : UserRow) (e pw secret : String)
    (huniq : st.EmailsUnique) (hu : u ∈ st.rows) (he : u.email = some e)
    (hemail : prepareValue L b.email = some e) (hrun : rejection fault [some e] = none)
    (hpw : b.password = .str pw)
    (hcmp : L.bcryptCompare pw u.password_hash = true)
    (hsecret : env.JWT_SECRET = some secret) (hs : secret ≠ "")
    (hopen : L.jwtOpen (L.jwtSeal ⟨u.id, now, some (now + oneHour)⟩ secret) secret =
      some ⟨u.id, now, some (now + oneHour)⟩)
    (hne : L.jwtSeal ⟨u.id, now, some (now + oneHour)⟩ secret ≠ "") :
    login L env now fault st b =
        ⟨200, .token (L.jwtSeal ⟨u.id, now, some (now + oneHour)⟩ secret), st,
          [.selectByEmail], true, []⟩ ∧
      ∀ t, t < now + oneHour →
        ∃ user, authenticateToken L env t
            (some (L.jwtSeal ⟨u.id, now, some (now + oneHour)⟩ secret)) = .next user ∧
          user.id = u.id := by
  constructor
  · have hsel := selectByEmail_of_mem fault st u e huniq hu he hrun
    simp [login, hemail, hsel, hpw, bcrypt_compare, hcmp, jwt_sign, hsecret, hs]
  · intro t ht
    refine ⟨⟨u.id, now, some (now + oneHour)⟩, ?_, rfl⟩
    apply authenticateToken_of_verify
    have hlt : ¬ (now + oneHour ≤ t) := Nat.not_le.mpr ht
    simp [jwt_verify, hne, hsecret, hs, hopen, hlt]

/-- Witness for C2: `a@x.com` logs in with `p1` at time 1000. -/
theorem login_token_authenticates_witness :
    login demoLibs demoEnv 1000 none demoStore
        ⟨.undefined, .undefined, .undefined, .undefined, .str "a@x.com", .undefined,
          .undefined, .undefined, .str "p1"⟩ =
        ⟨200, .token (demoLibs.jwtSeal ⟨demoUser.id, 1000, some (1000 + oneHour)⟩ "k"),
          demoStore, [.selectByEmail], true, []⟩ ∧
      ∀ t, t < 1000 + oneHour →
        ∃ user, authenticateToken demoLibs demoEnv t
            (some (demoLibs.jwtSeal ⟨demoUser.id, 1000, some (1000 + oneHour)⟩ "k")) =
              .next user ∧
          user.id = demoUser.id :=
  login_token_authenticates demoLibs demoEnv 1000 none demoStore _ demoUser "a@x.com" "p1" "k"
    (by simp [Store.EmailsUnique, demoStore]) (by decide) rfl rfl (by decide) rfl (by decide)
    rfl (by decide) (by decide) (by decide)

/-! ## C3: the two messages of the middleware -/

/-- C3 (as amended): every non-empty `x-auth-token` value that `jwt.verify`
rejects is answered with 401 `Token is not valid`; the answer is 401
`No token, authorization denied` exactly when the header is absent or is the
empty string. -/
theorem authenticateToken_messages (L : Libs) (env : Env) (now : Nat) :
    (∀ token err, token ≠ "" → jwt_verify L token env.JWT_SECRET now = .error err →
        authenticateToken L env now (some token) = .denied 401 "Token is not valid") ∧
    (∀ header, authenticateToken L env now header =
        .denied 401 "No token, authorization denied" ↔ header = none ∨ header = some "") := by
  constructor
  · intro token err hne hv
    simp [authenticateToken, hne, hv]
  · intro header
    cases header with
    | none => simp [authenticateToken]
    | some token =>
      by_cases h0 : token = ""
      · simp [authenticateToken, h0]
      · cases hv : jwt_verify L token env.JWT_SECRET now with
        | error err => simp [authenticateToken, h0, hv]
        | ok p => simp [authenticateToken, h0, hv]

/-- Counterexample to C3 as stated: the header is present with the empty
string as its value, `jwt.verify` rejects the empty string, and the answer is
`No token, authorization denied`, not `Token is not valid`. -/
theorem authenticateToken_empty_header :
    jwt_verify demoLibs "" demoEnv.JWT_SECRET 0 = .error "jwt must be provided" ∧
    authenticateToken demoLibs demoEnv 0 (some "") =
      .denied 401 "No token, authorization denied" ∧
    authenticateToken demoLibs demoEnv 0 (some "") ≠ .denied 401 "Token is not valid" := by
  refine ⟨rfl, by decide, by decide⟩

/-! ## C4: the protected routes -/

/-- C4: a `GET` or `PUT /api/profile` whose `x-auth-token` is missing or is
rejected by `jwt.verify` is answered with status 401; the route handler does
not run, no statement is issued and the table is unchanged. -/
theorem profile_routes_gated (L : Libs) (env : Env) (now : Nat) (salt : String)
    (fault : Option String)
    (st : Store) (header : Option String) (b : ReqBody) (req : Request)
    (hreq : req = .getProfile header ∨ req = .putProfile header b)
    (hbad : header = none ∨
      ∃ token err, header = some token ∧ jwt_verify L token env.JWT_SECRET now = .error err) :
    (handle L env now salt fault st req).status = 401 ∧
    (handle L env now salt fault st req).handlerRan = false ∧
    (handle L env now salt fault st req).queries = [] ∧
    (handle L env now salt fault st req).store = st := by
  have hden : ∃ m, authenticateToken L env now header = .denied 401 m := by
    rcases hbad with h | ⟨token, err, h, hv⟩
    · exact ⟨"No token, authorization denied", by simp [authenticateToken, h]⟩
    · by_cases h0 : token = ""
      · exact ⟨"No token, authorization denied", by simp [authenticateToken, h, h0]⟩
      · exact ⟨"Token is not valid", by simp [authenticateToken, h, h0, hv]⟩
  obtain ⟨m, hm⟩ := hden
  rcases hreq with h | h <;> simp [h, handle, protect, hm]

/-- Witness for C4: a `PUT /api/profile` carrying an expired token. -/
theorem profile_routes_gated_witness :
    (handle demoLibs demoEnv 5000 "s" none demoStore
        (.putProfile (some "k.1.1000.4600") emptyBody)).status = 401 ∧
    (handle demoLibs demoEnv 5000 "s" none demoStore
        (.putProfile (some "k.1.1000.4600") emptyBody)).handlerRan = false ∧
    (handle demoLibs demoEnv 5000 "s" none demoStore
        (.putProfile (some "k.1.1000.4600") emptyBody)).queries = [] ∧
    (handle demoLibs demoEnv 5000 "s" none demoStore
        (.putProfile (some "k.1.1000.4600") emptyBody)).store = demoStore :=
  profile_routes_gated demoLibs demoEnv 5000 "s" none demoStore (some "k.1.1000.4600")
    emptyBody _ (Or.inr rfl) (Or.inr ⟨"k.1.1000.4600", "jwt expired", rfl, rfl⟩)

/-! ## C5 and C6: registration -/

/-- C5 (as amended): a registration with a string password and an email no
row carries, whose `INSERT` the store does not reject, appends exactly one
row: the next identifier, the submitted profile values (the portfolio as
`JSON.stringify` gives it), and as `password_hash` the result of
`bcrypt.hash(password, salt)`, which differs from the raw password wherever
bcrypt's output differs from its input; the answer is 200 with a token sealed
over the identifier of the new row. -/
theorem register_persists_user (L : Libs) (env : Env) (now : Nat) (salt : String)
    (fault : Option String) (st : Store) (b : ReqBody) (pw secret : String)
    (hpw : b.password = .str pw)
    (hfresh : ∀ r ∈ st.rows, r.email ≠ prepareValue L b.email)
    (hrun : rejection fault
      (insertParams (profileParams L b) (prepareValue L b.email) (L.bcryptHash pw salt)) = none)
    (hsecret : env.JWT_SECRET = some secret) (hs : secret ≠ "")
    (hhash : L.bcryptHash pw salt ≠ pw) :
    ∃ row : UserRow,
      (register L env now salt fault st b).store.rows = st.rows ++ [row] ∧
      row.id = st.nextId ∧
      row.first_name = prepareValue L b.first_name ∧
      row.last_name = prepareValue L b.last_name ∧
      row.website = prepareValue L b.website ∧
      row.professional_title = prepareValue L b.professional_title ∧
      row.email = prepareValue L b.email ∧
      row.bio = prepareValue L b.bio ∧
      row.skills = prepareValue L b.skills ∧
      row.portfolio = JSON_stringify L b.portfolio ∧
      row.password_hash = L.bcryptHash pw salt ∧
      row.password_hash ≠ pw ∧
      (register L env now salt fault st b).status = 200 ∧
      (register L env now salt fault st b).body =
        .token (L.jwtSeal ⟨row.id, now, some (now + oneHour)⟩ secret) := by
  have htaken : emailTaken st (prepareValue L b.email) = false := by
    cases hp : prepareValue L b.email with
    | none => rfl
    | some s =>
      simp only [emailTaken, List.any_eq_false]
      intro r hr
      have := hfresh r hr
      rw [hp] at this
      simpa using this
  have hins : insertUser fault st (profileParams L b) (prepareValue L b.email)
      (L.bcryptHash pw salt) =
      .ok (⟨st.rows ++ [⟨st.nextId, prepareValue L b.first_name, prepareValue L b.last_name,
          prepareValue L b.website, prepareValue L b.professional_title,
          prepareValue L b.email, prepareValue L b.bio, prepareValue L b.skills,
          JSON_stringify L b.portfolio, L.bcryptHash pw salt⟩], st.nextId + 1⟩,
        ⟨st.nextId, prepareValue L b.first_name, prepareValue L b.last_name,
          prepareValue L b.website, prepareValue L b.professional_title,
          prepareValue L b.email, prepareValue L b.bio, prepareValue L b.skills,
          JSON_stringify L b.portfolio, L.bcryptHash pw salt⟩) := by
    simp only [insertUser, hrun, htaken]
    rfl
  refine ⟨⟨st.nextId, prepareValue L b.first_name, prepareValue L b.last_name,
    prepareValue L b.website, prepareValue L b.professional_title, prepareValue L b.email,
    prepareValue L b.bio, prepareValue L b.skills, JSON_stringify L b.portfolio,
    L.bcryptHash pw salt⟩, ?_, rfl, rfl, rfl, rfl, rfl, rfl, rfl, rfl, rfl, rfl, hhash, ?_, ?_⟩ <;>
  simp [register, hpw, bcrypt_hash, hins, jwt_sign, hsecret, hs]

/-- Witness for C5: `b@x.com` registers with password `p2` next to `a@x.com`. -/
theorem register_persists_user_witness :
    ∃ row : UserRow,
      (register demoLibs demoEnv 1000 "s" none demoStore
        ⟨.str "Bob", .undefined, .undefined, .undefined, .str "b@x.com", .undefined,
          .undefined, .arr [], .str "p2"⟩).store.rows = demoStore.rows ++ [row] ∧
      row.id = demoStore.nextId ∧
      row.first_name = prepareValue demoLibs (.str "Bob") ∧
      row.last_name = prepareValue demoLibs .undefined ∧
      row.website = prepareValue demoLibs .undefined ∧
      row.professional_title = prepareValue demoLibs .undefined ∧
      row.email = prepareValue demoLibs (.str "b@x.com") ∧
      row.bio = prepareValue demoLibs .undefined ∧
      row.skills = prepareValue demoLibs .undefined ∧
      row.portfolio = JSON_stringify demoLibs (.arr []) ∧
      row.password_hash = demoLibs.bcryptHash "p2" "s" ∧
      row.password_hash ≠ "p2" ∧
      (register demoLibs demoEnv 1000 "s" none demoStore
        ⟨.str "Bob", .undefined, .undefined, .undefined, .str "b@x.com", .undefined,
          .undefined, .arr [], .str "p2"⟩).status = 200 ∧
      (register demoLibs demoEnv 1000 "s" none demoStore
        ⟨.str "Bob", .undefined, .undefined, .undefined, .str "b@x.com", .undefined,
          .undefined, .arr [], .str "p2"⟩).body =
        .token (demoLibs.jwtSeal ⟨row.id, 1000, some (1000 + oneHour)⟩ "k") :=
  register_persists_user demoLibs demoEnv 1000 "s" none demoStore _ "p2" "k" rfl
    (by decide) (by decide) rfl (by decide) (by decide)

/-- Counterexample to C5 as stated: a registration with a string password and
an email no row carries, whose first name is the one character U+0000: the
store refuses the parameter, the answer is 500 `Server error`, and no row is
added. -/
theorem register_refused_parameter :
    (∀ r ∈ demoStore.rows, r.email ≠ prepareValue demoLibs (JsValue.str "z@x.com")) ∧
    register demoLibs demoEnv 1000 "s" none demoStore
        ⟨.str "\x00", .undefined, .undefined, .undefined, .str "z@x.com", .undefined,
          .undefined, .undefined, .str "p"⟩ =
      ⟨500, .text "Server error", demoStore, [.insertUser], true,
        ["invalid byte sequence for encoding UTF8: 0x00"]⟩ := by
  refine ⟨by decide, by decide⟩

/-- C6: registering with an email a stored row already carries is answered
with status 500 and the plain text `Server error`, never a token, and the
table is left as it was. -/
theorem register_duplicate_email (L : Libs) (env : Env) (now : Nat) (salt : String)
    (fault : Option String)
    (st : Store) (b : ReqBody) (u : UserRow) (e : String)
    (hu : u ∈ st.rows) (he : u.email = some e)
    (hemail : prepareValue L b.email = some e) :
    (register L env now salt fault st b).status = 500 ∧
    (register L env now salt fault st b).body = .text "Server error" ∧
    (∀ t, (register L env now salt fault st b).body ≠ .token t) ∧
    (register L env now salt fault st b).store = st := by
  have htaken : emailTaken st (some e) = true := by
    simp only [emailTaken, List.any_eq_true]
    exact ⟨u, hu, by simp [he]⟩
  cases hh : bcrypt_hash L b.password salt with
  | error err => simp [register, hh, serverError]
  | ok hash =>
    cases hr : rejection fault
        (insertParams (profileParams L b) (some e) hash) with
    | some err => simp [register, hh, hemail, insertUser, hr, serverError]
    | none => simp [register, hh, hemail, insertUser, hr, htaken, serverError]

/-- Witness for C6: a second registration of `a@x.com`. -/
theorem register_duplicate_email_witness :
    (register demoLibs demoEnv 1000 "s" none demoStore
        ⟨.undefined, .undefined, .undefined, .undefined, .str "a@x.com", .undefined,
          .undefined, .undefined, .str "p9"⟩).status = 500 ∧
    (register demoLibs demoEnv 1000 "s" none demoStore
        ⟨.undefined, .undefined, .undefined, .undefined, .str "a@x.com", .undefined,
          .undefined, .undefined, .str "p9"⟩).body = .text "Server error" ∧
    (∀ t, (register demoLibs demoEnv 1000 "s" none demoStore
        ⟨.undefined, .undefined, .undefined, .undefined, .str "a@x.com", .undefined,
          .undefined, .undefined, .str "p9"⟩).body ≠ .token t) ∧
    (register demoLibs demoEnv 1000 "s" none demoStore
        ⟨.undefined, .undefined, .undefined, .undefined, .str "a@x.com", .undefined,
          .undefined, .undefined, .str "p9"⟩).store = demoStore :=
  register_duplicate_email demoLibs demoEnv 1000 "s" none demoStore _ demoUser "a@x.com"
    (by decide) rfl rfl

/-! ## C7, C8 and C9: profile update -/

/-- C7: after an authenticated `PUT /api/profile` for the identifier of a
stored user has succeeded (status 200), an authenticated `GET /api/profile`
for the same identifier that is answered (status 200) returns a row whose
seven profile columns are the submitted values (the portfolio as
`JSON.stringify` gives it); every column is overwritten, and a field absent
from the body is stored as NULL. -/
theorem update_then_get (L : Libs) (env : Env) (now now2 : Nat) (salt salt2 : String)
    (fault fault2 : Option String)
    (st : Store) (b : ReqBody) (u : UserRow) (h1 h2 : Option String) (p1 p2 : Payload)
    (hu : u ∈ st.rows)
    (hauth1 : authenticateToken L env now h1 = .next p1) (hid1 : p1.id = u.id)
    (hauth2 : authenticateToken L env now2 h2 = .next p2) (hid2 : p2.id = u.id)
    (hput : (handle L env now salt fault st (.putProfile h1 b)).status = 200)
    (hget : (handle L env now2 salt2 fault2
        (handle L env now salt fault st (.putProfile h1 b)).store
        (.getProfile h2)).status = 200) :
    (handle L env now salt fault st (.putProfile h1 b)).body = .text "Profile updated" ∧
    (∃ r, (handle L env now2 salt2 fault2
        (handle L env now salt fault st (.putProfile h1 b)).store
        (.getProfile h2)).body = .row (some r) ∧
      r.id = u.id ∧
      r.first_name = prepareValue L b.first_name ∧
      r.last_name = prepareValue L b.last_name ∧
      r.website = prepareValue L b.website ∧
      r.professional_title = prepareValue L b.professional_title ∧
      r.bio = prepareValue L b.bio ∧
      r.skills = prepareValue L b.skills ∧
      r.portfolio = JSON_stringify L b.portfolio) ∧
    prepareValue L .undefined = none ∧ JSON_stringify L .undefined = none := by
  have hP : handle L env now salt fault st (.putProfile h1 b) = putProfile L fault st b p1 := by
    simp [handle, protect, hauth1]
  rw [hP] at hget hput ⊢
  cases hr : rejection fault (updateParams (profileParams L b)) with
  | some err => simp [putProfile, updateUser, hr, serverError] at hput
  | none =>
    have hPut : putProfile L fault st b p1 =
        ⟨200, .text "Profile updated",
          ⟨updateRows st.rows (profileParams L b) p1.id, st.nextId⟩,
          [.updateUser], true, []⟩ := by
      simp [putProfile, updateUser, hr]
    rw [hPut] at hget ⊢
    refine ⟨rfl, ?_, rfl, rfl⟩
    cases hr2 : rejection fault2 [] with
    | some err =>
      simp [handle, protect, hauth2, getProfile, selectById, hr2, serverError] at hget
    | none =>
      obtain ⟨r, hr', hrid, hrp⟩ :=
        filter_updateRows_head (profileParams L b) u.id st.rows ⟨u, hu, rfl⟩
      refine ⟨r, ?_, hrid, ?_⟩
      · simp only [handle, protect, hauth2, getProfile, selectById, hr2, hid1, hid2]
        rw [hr']
      · simp only [UserRow.profile, profileParams, ProfileFields.mk.injEq] at hrp
        exact hrp

/-- Witness for C7: user 1 sets a first name and a portfolio, then reads the
profile back. -/
theorem update_then_get_witness :
    ∃ r, (handle demoLibs demoEnv 3000 "s" none
        (handle demoLibs demoEnv 2000 "s" none demoStore
          (.putProfile (some "k.1.1000.4600")
            ⟨.str "Al", .undefined, .undefined, .undefined, .undefined, .undefined,
              .undefined, .arr [], .undefined⟩)).store
        (.getProfile (some "k.1.1000.4600"))).body = .row (some r) ∧
      r.id = demoUser.id ∧
      r.first_name = prepareValue demoLibs (.str "Al") ∧
      r.last_name = prepareValue demoLibs .undefined ∧
      r.website = prepareValue demoLibs .undefined ∧
      r.professional_title = prepareValue demoLibs .undefined ∧
      r.bio = prepareValue demoLibs .undefined ∧
      r.skills = prepareValue demoLibs .undefined ∧
      r.portfolio = JSON_stringify demoLibs (.arr []) :=
  (update_then_get demoLibs demoEnv 2000 3000 "s" "s" none none demoStore
    ⟨.str "Al", .undefined, .undefined, .undefined, .undefined, .undefined,
      .undefined, .arr [], .undefined⟩ demoUser (some "k.1.1000.4600") (some "k.1.1000.4600")
    ⟨1, 1000, some 4600⟩ ⟨1, 1000, some 4600⟩ (by decide) (by decide) rfl (by decide)
    rfl (by decide) (by decide)).2.1

/-- C8: whatever request the server handles, and whether or not the store
rejects its statement, the credential columns (identifier, email, password
hash) of the rows already in the table are, in order, a leading part of those
of the table afterwards, so no row is deleted and none changes its identifier,
email or password hash; and an authenticated profile update for identifier
`i` leaves the rows with another identifier exactly as they were. -/
theorem credentials_immutable (L : Libs) (env : Env) (now : Nat) (salt : String)
    (fault : Option String) (st : Store) (req : Request) :
    (st.rows.map UserRow.creds) <+:
        ((handle L env now salt fault st req).store.rows.map UserRow.creds) ∧
    (∀ h b p, req = .putProfile h b → authenticateToken L env now h = .next p →
      (handle L env now salt fault st req).store.rows.filter (fun r => r.id != p.id) =
        st.rows.filter (fun r => r.id != p.id)) := by
  constructor
  · cases req with
    | register b =>
      rcases register_store L env now salt fault st b with h | ⟨hash, row, h⟩
      · simp only [handle, h]; exact List.prefix_refl _
      · obtain ⟨-, -, hst, -⟩ := insertUser_inv fault st _ _ _ hash row h
        simp only [handle]
        rw [hst, List.map_append]
        exact List.prefix_append _ _
    | login b => simp only [handle, login_store]; exact List.prefix_refl _
    | getProfile h =>
      cases ha : authenticateToken L env now h with
      | denied status m => simp only [handle, protect, ha]; exact List.prefix_refl _
      | next user =>
        simp only [handle, protect, ha, getProfile_store]; exact List.prefix_refl _
    | putProfile h b =>
      cases ha : authenticateToken L env now h with
      | denied status m => simp only [handle, protect, ha]; exact List.prefix_refl _
      | next user =>
        simp only [handle, protect, ha]
        rcases putProfile_store L fault st b user with hs | hs
        · rw [hs]
        · rw [hs, updateRows_creds]
  · intro h b p hreq ha
    subst hreq
    simp only [handle, protect, ha]
    rcases putProfile_store L fault st b p with hs | hs
    · rw [hs]
    · rw [hs]; exact updateRows_others (profileParams L b) p.id st.rows

/-- C9 (as amended): a `PUT /api/profile` with a token `jwt.verify` accepts,
whose `id` no row carries, leaves the table unchanged; and when the store does
not reject the `UPDATE`, it is answered with 200 and the text
`Profile updated`. -/
theorem update_unknown_identifier (L : Libs) (env : Env) (now : Nat) (salt : String)
    (fault : Option String)
    (st : Store) (b : ReqBody) (token : String) (p : Payload)
    (hv : jwt_verify L token env.JWT_SECRET now = .ok p)
    (hnone : ∀ r ∈ st.rows, r.id ≠ p.id) :
    (handle L env now salt fault st (.putProfile (some token) b)).store = st ∧
    (rejection fault (updateParams (profileParams L b)) = none →
      handle L env now salt fault st (.putProfile (some token) b) =
        ⟨200, .text "Profile updated", st, [.updateUser], true, []⟩) := by
  have ha := authenticateToken_of_verify L env now token p hv
  have hrows := updateRows_absent st.rows (profileParams L b) p.id hnone
  constructor
  · simp only [handle, protect, ha]
    rcases putProfile_store L fault st b p with hs | hs
    · exact hs
    · rw [hs, hrows]
  · intro hrun
    simp only [handle, protect, ha, putProfile, updateUser, hrun, hrows]

/-- Witness for C9: a valid token for identifier 7, which no row carries. -/
theorem update_unknown_identifier_witness :
    (handle demoLibs demoEnv 2000 "s" none demoStore
        (.putProfile (some "k.7.1000.4600")
          ⟨.str "Al", .undefined, .undefined, .undefined, .undefined, .undefined,
            .undefined, .undefined, .undefined⟩)).store = demoStore ∧
    handle demoLibs demoEnv 2000 "s" none demoStore
        (.putProfile (some "k.7.1000.4600")
          ⟨.str "Al", .undefined, .undefined, .undefined, .undefined, .undefined,
            .undefined, .undefined, .undefined⟩) =
      ⟨200, .text "Profile updated", demoStore, [.updateUser], true, []⟩ :=
  ⟨(update_unknown_identifier demoLibs demoEnv 2000 "s" none demoStore _ "k.7.1000.4600"
      ⟨7, 1000, some 4600⟩ rfl (by decide)).1,
    (update_unknown_identifier demoLibs demoEnv 2000 "s" none demoStore _ "k.7.1000.4600"
      ⟨7, 1000, some 4600⟩ rfl (by decide)).2 (by decide)⟩

/-- Counterexample to C9 as stated: a valid token for identifier 7, which no
row carries, with a first name that is the one character U+0000: the store
refuses the parameter and the answer is 500 `Server error`, not 200. -/
theorem update_refused_parameter :
    jwt_verify demoLibs "k.7.1000.4600" demoEnv.JWT_SECRET 2000 = .ok ⟨7, 1000, some 4600⟩ ∧
    (∀ r ∈ demoStore.rows, r.id ≠ 7) ∧
    handle demoLibs demoEnv 2000 "s" none demoStore
        (.putProfile (some "k.7.1000.4600")
          ⟨.str "\x00", .undefined, .undefined, .undefined, .undefined, .undefined,
            .undefined, .undefined, .undefined⟩) =
      ⟨500, .text "Server error", demoStore, [.updateUser], true,
        ["invalid byte sequence for encoding UTF8: 0x00"]⟩ := by
  refine ⟨rfl, by decide, by decide⟩

/-! ## C10: the password at registration -/

/-- C10 (as amended): a registration whose password is absent or is not a
string persists no user and issues no token: `bcrypt.hash` rejects it before
any statement is issued, and the answer is 500 `Server error`. -/
theorem register_rejects_non_string_password (L : Libs) (env : Env) (now : Nat)
    (salt : String) (fault : Option String) (st : Store) (b : ReqBody)
    (h : ∀ s, b.password ≠ .str s) :
    register L env now salt fault st b =
      ⟨500, .text "Server error", st, [], true,
        ["Illegal arguments: " ++ b.password.typeof ++ ", string"]⟩ := by
  have hh : bcrypt_hash L b.password salt =
      .error ("Illegal arguments: " ++ b.password.typeof ++ ", string") := by
    cases hp : b.password with
    | str s => exact absurd hp (h s)
    | undefined => rfl
    | null => rfl
    | bool v => rfl
    | num n => rfl
    | arr items => rfl
    | obj fields => rfl
  simp only [register, hh, serverError]

/-- Witness for C10: a registration without a password field. -/
theorem register_rejects_non_string_password_witness :
    register demoLibs demoEnv 1000 "s" none demoStore
        ⟨.undefined, .undefined, .undefined, .undefined, .str "c@x.com", .undefined,
          .undefined, .undefined, .undefined⟩ =
      ⟨500, .text "Server error", demoStore, [], true,
        ["Illegal arguments: " ++ JsValue.undefined.typeof ++ ", string"]⟩ :=
  register_rejects_non_string_password demoLibs demoEnv 1000 "s" none demoStore _
    (fun _ h => JsValue.noConfusion h)

/-- Counterexample to C10 as stated: a registration with the empty string as
password is accepted: a row is stored and a token is returned. -/
theorem register_accepts_empty_password :
    register demoLibs demoEnv 1000 "s" none ⟨[], 1⟩
        ⟨.undefined, .undefined, .undefined, .undefined, .str "a@x.com", .undefined,
          .undefined, .undefined, .str ""⟩ =
      ⟨200, .token "k.1.1000.4600",
        ⟨[⟨1, none, none, none, none, some "a@x.com", none, none, none, "s$"⟩], 2⟩,
        [.insertUser], true, []⟩ := by
  decide

end Profile
